import Mathlib

/-!
Verification of the model-resolution and dispatch facade in `taupy/tau.py`.

The development shallowly embeds the facade:
  * `Arrivals` — the list-inheriting result container (`Arrivals.__init__`,
    `__str__`, `__repr__`);
  * `TauPyModel.init` — the constructor with its load / build-and-retry
    protocol (`TauPyModel.__init__`);
  * `TauPyModel.get_travel_time`, `get_pierce_points`, `get_ray_paths` —
    the three dispatch methods;
  * `TauPyModel.create_taup_model` — the static model-building utility.

External collaborators (the `load` function of `TauModelLoader`, the
`TauP_Create.main` builder, and the three computation engines `TauP_Time`,
`TauP_Pierce`, `TauP_Path`) are parameters: `load` and `build` act on an
abstract filesystem state `σ`, and each engine is a function from its
request record to the arrival list it exposes after `run`.  Side effects
(console prints, collaborator invocations) are made observable as an event
trace returned alongside each result, so that claims about how often the
facade loads, builds, prints and dispatches become statements about traces.

Numeric parameters (depths, distances, coordinates) are carried as `Rat`;
the facade never computes with them, it only forwards them, so the carrier
type is irrelevant to every property proved here.
-/

/-- Outcome kinds of the loading collaborator: Python's `FileNotFoundError`
is the distinguished "not found" condition caught by `TauPyModel.__init__`;
every other exception kind is collapsed into `other`. -/
inductive LoadErr
  | fileNotFound
  | other (msg : String)
deriving DecidableEq

/-- Innermost velocity-model record: `vMod` of the loaded model, exposing
`modelName` (the only field the facade reads, via
`self.model.sMod.vMod.modelName`). -/
structure VMod where
  modelName : String
deriving DecidableEq

/-- Slowness-model layer of the loaded model: the `sMod` attribute. -/
structure SMod where
  vMod : VMod
deriving DecidableEq

/-- The object returned by the loading collaborator
(`TauModelLoader.load`); the facade stores it in `self.model`. -/
structure TauModel where
  sMod : SMod
deriving DecidableEq

/-- One arrival record as produced by a computation engine.  Its own
display forms are produced by external code (the `Arrival` class lives in
the engine modules), so they are carried abstractly as the `toStr` and
`toRepr` fields. -/
structure Arrival where
  name : String
  time : Rat
  toStr : String
  toRepr : String
deriving DecidableEq

/-- The container class `Arrivals(list)`. -/
abbrev Arrivals := List Arrival

/-- Embeds `Arrivals.__init__`: start from the empty list
(`super().__init__()`) and `extend` with the given arrivals. -/
def Arrivals.init (arrivals : List Arrival) : Arrivals :=
  ([] : List Arrival) ++ arrivals

/-- Embeds Python's `sep.join(strings)`. -/
def pyJoin (sep : String) : List String → String
  | [] => ""
  | [s] => s
  | s :: rest => s ++ sep ++ pyJoin sep rest

/-- Embeds `Arrivals.__str__`: the template
`"{count} arrivals\n\t{arrivals}"` with `count = len(self)` and
`arrivals = "\n\t".join([str(_i) for _i in self])`. -/
def Arrivals.toStr (self : Arrivals) : String :=
  toString self.length ++ " arrivals\n\t" ++
    pyJoin "\n\t" (self.map Arrival.toStr)

/-- Embeds `Arrivals.__repr__`: `"[%s]" % (", ".join([repr(_i) ...]))`. -/
def Arrivals.toRepr (self : Arrivals) : String :=
  "[" ++ pyJoin ", " (self.map Arrival.toRepr) ++ "]"

/-- Request record handed to the `TauP_Time` engine by
`get_travel_time`. -/
structure TimeReq where
  phase_list : List String
  modelName : String
  source_depth_in_km : Rat
  distance_in_degree : Option Rat
  coordinate_list : Option (List Rat)
deriving DecidableEq

/-- Request record handed to the `TauP_Pierce` engine by
`get_pierce_points` (distance-only geometry). -/
structure PierceReq where
  phase_list : List String
  modelName : String
  source_depth_in_km : Rat
  distance_in_degree : Rat
deriving DecidableEq

/-- Request record handed to the `TauP_Path` engine by `get_ray_paths`
(distance-only geometry). -/
structure PathReq where
  phase_list : List String
  modelName : String
  source_depth_in_km : Rat
  distance_in_degree : Rat
deriving DecidableEq

/-- Observable side effects of the facade, recorded in order: calls of the
loading collaborator, console diagnostics, calls of the building
collaborator, and engine dispatches (with their `print_output` flag). -/
inductive Event
  | loadCall (model : String) (path : String) (verbose : Bool)
  | printMsg (msg : String)
  | buildCall (model_file_name : String) (output_dir : String)
  | runTime (req : TimeReq) (print_output : Bool)
  | runPierce (req : PierceReq) (print_output : Bool)
  | runPath (req : PathReq) (print_output : Bool)
deriving DecidableEq

/-- Recognizes load-collaborator invocations in a trace. -/
def Event.isLoadCall : Event → Bool
  | Event.loadCall _ _ _ => true
  | _ => false

/-- Recognizes build-collaborator invocations in a trace. -/
def Event.isBuildCall : Event → Bool
  | Event.buildCall _ _ => true
  | _ => false

/-- Number of load-collaborator invocations recorded in a trace. -/
def countLoadCalls (t : List Event) : Nat :=
  (t.filter Event.isLoadCall).length

/-- Number of build-collaborator invocations recorded in a trace. -/
def countBuildCalls (t : List Event) : Nat :=
  (t.filter Event.isBuildCall).length

/-- The phase list carried by an engine-dispatch event, if any. -/
def Event.enginePhases : Event → Option (List String)
  | Event.runTime req _ => some req.phase_list
  | Event.runPierce req _ => some req.phase_list
  | Event.runPath req _ => some req.phase_list
  | _ => none

/-- The model name carried by an engine-dispatch event, if any. -/
def Event.engineModelName : Event → Option String
  | Event.runTime req _ => some req.modelName
  | Event.runPierce req _ => some req.modelName
  | Event.runPath req _ => some req.modelName
  | _ => none

/-- The facade object: its two attributes `self.model` and
`self.verbose`, both assigned in `TauPyModel.__init__` and never written
afterwards. -/
structure TauPyModel where
  model : TauModel
  verbose : Bool
deriving DecidableEq

/-- Embeds the fixed model-directory convention:
`os.path.join(os.path.dirname(...), "data", "taup_models")`, with
`package_dir` standing for the installation directory of the module. -/
def taup_model_path (package_dir : String) : String :=
  package_dir ++ "/data/taup_models"

/-- The diagnostic printed when the initial load raises
`FileNotFoundError` (the source's implicitly concatenated string literals
produce the run-together "taup_modelsdirectory"). -/
def notFoundMsg (model : String) : String :=
  "A " ++ model ++ ".taup model file was not found in the taup_models" ++
    "directory, will try to create one. " ++ "This may take a while."

/-- Embeds the static method `TauPyModel.create_taup_model`: derive the
source-profile filename (`model_name` verbatim when it contains a `.`,
otherwise `model_name + ".tvel"`) and invoke the building collaborator
`TauP_Create.main(model_file_name, output_dir)` on the filesystem state
`w`.  Returns the new state and the recorded invocation. -/
def TauPyModel.create_taup_model {σ : Type} (build : σ → String → String → σ)
    (model_name : String) (output_dir : String) (w : σ) : σ × List Event :=
  let model_file_name :=
    if model_name.data.contains '.' then model_name else model_name ++ ".tvel"
  (build w model_file_name output_dir,
   [Event.buildCall model_file_name output_dir])

/-- Embeds `TauPyModel.__init__`: try `load(model, taup_model_path,
verbose)`; on `FileNotFoundError` print the diagnostic, run
`create_taup_model(model, taup_model_path)` and retry the load once; any
other first-load error, and any error of the retry, propagates.  Returns
the constructed facade (or the propagated error), the final filesystem
state, and the trace of collaborator calls and prints. -/
def TauPyModel.init {σ : Type}
    (load : σ → String → String → Bool → Except LoadErr TauModel)
    (build : σ → String → String → σ)
    (package_dir : String) (w : σ)
    (model : String := "iasp91") (verbose : Bool := false) :
    Except LoadErr TauPyModel × σ × List Event :=
  let path := taup_model_path package_dir
  match load w model path verbose with
  | Except.ok m =>
      (Except.ok { model := m, verbose := verbose }, w,
       [Event.loadCall model path verbose])
  | Except.error LoadErr.fileNotFound =>
      let built := TauPyModel.create_taup_model build model path w
      let trace := Event.loadCall model path verbose ::
        Event.printMsg (notFoundMsg model) ::
        built.2 ++ [Event.loadCall model path verbose]
      match load built.1 model path verbose with
      | Except.ok m =>
          (Except.ok { model := m, verbose := verbose }, built.1, trace)
      | Except.error e => (Except.error e, built.1, trace)
  | Except.error (LoadErr.other msg) =>
      (Except.error (LoadErr.other msg), w,
       [Event.loadCall model path verbose])

/-- Embeds `TauPyModel.get_travel_time`: default the phase list to
`["ttall"]` only when the caller passed `None`, build the `TauP_Time`
request from the bound model's name and the forwarded geometry, run the
engine, and wrap its arrivals. -/
def TauPyModel.get_travel_time (self : TauPyModel)
    (timeEngine : TimeReq → List Arrival)
    (source_depth_in_km : Rat) (distance_in_degree : Option Rat := none)
    (phase_list : Option (List String) := none)
    (print_output : Bool := false)
    (coordinate_list : Option (List Rat) := none) : Arrivals × List Event :=
  let phase_list := match phase_list with
    | some p => p
    | none => ["ttall"]
  let req : TimeReq :=
    { phase_list := phase_list,
      modelName := self.model.sMod.vMod.modelName,
      source_depth_in_km := source_depth_in_km,
      distance_in_degree := distance_in_degree,
      coordinate_list := coordinate_list }
  (Arrivals.init (timeEngine req), [Event.runTime req print_output])

/-- Embeds `TauPyModel.get_pierce_points`: same `None`-only phase-list
defaulting, distance-only geometry, dispatch to `TauP_Pierce`. -/
def TauPyModel.get_pierce_points (self : TauPyModel)
    (pierceEngine : PierceReq → List Arrival)
    (source_depth_in_km : Rat) (distance_in_degree : Rat)
    (phase_list : Option (List String) := none)
    (print_output : Bool := false) : Arrivals × List Event :=
  let phase_list := match phase_list with
    | some p => p
    | none => ["ttall"]
  let req : PierceReq :=
    { phase_list := phase_list,
      modelName := self.model.sMod.vMod.modelName,
      source_depth_in_km := source_depth_in_km,
      distance_in_degree := distance_in_degree }
  (Arrivals.init (pierceEngine req), [Event.runPierce req print_output])

/-- Embeds `TauPyModel.get_ray_paths`: same `None`-only phase-list
defaulting, distance-only geometry, dispatch to `TauP_Path`. -/
def TauPyModel.get_ray_paths (self : TauPyModel)
    (pathEngine : PathReq → List Arrival)
    (source_depth_in_km : Rat) (distance_in_degree : Rat)
    (phase_list : Option (List String) := none)
    (print_output : Bool := false) : Arrivals × List Event :=
  let phase_list := match phase_list with
    | some p => p
    | none => ["ttall"]
  let req : PathReq :=
    { phase_list := phase_list,
      modelName := self.model.sMod.vMod.modelName,
      source_depth_in_km := source_depth_in_km,
      distance_in_degree := distance_in_degree }
  (Arrivals.init (pathEngine req), [Event.runPath req print_output])

/-- Demonstration filesystem: the list of artifact filenames present in
the model directory.  `demoLoad` succeeds exactly when `<model>.taup` is
present, returning a model whose reported name is the requested one, and
signals the "not found" condition otherwise. -/
def demoLoad (w : List String) (model : String) (_path : String)
    (_verbose : Bool) : Except LoadErr TauModel :=
  if w.contains (model ++ ".taup") then
    Except.ok { sMod := { vMod := { modelName := model } } }
  else
    Except.error LoadErr.fileNotFound

/-- Demonstration loader that always fails with a non-"not found" error,
standing for a corrupt artifact. -/
def demoLoadCorrupt (_w : List String) (_model : String) (_path : String)
    (_verbose : Bool) : Except LoadErr TauModel :=
  Except.error (LoadErr.other "corrupt artifact")

/-- Demonstration builder: records the built artifact in the
filesystem. -/
def demoBuild (w : List String) (model_file_name : String)
    (_output_dir : String) : List String :=
  w ++ [model_file_name]

/-- Demonstration builder whose build produces no artifact at all, so a
retry load still fails. -/
def demoBuildNoop (w : List String) (_model_file_name : String)
    (_output_dir : String) : List String :=
  w

/-- A concrete loaded model for demonstrations. -/
def demoTauModel : TauModel :=
  { sMod := { vMod := { modelName := "iasp91" } } }

/-- A concrete facade instance for demonstrations. -/
def demoFacade : TauPyModel :=
  { model := demoTauModel, verbose := false }

/-- A trivial travel-time engine for demonstrations. -/
def demoTimeEngine (_req : TimeReq) : List Arrival := []

/-- A trivial pierce-point engine for demonstrations. -/
def demoPierceEngine (_req : PierceReq) : List Arrival := []

/-- A trivial ray-path engine for demonstrations. -/
def demoPathEngine (_req : PathReq) : List Arrival := []

/-- Key rendering lemma: for a nonempty list, prefixing the
tab-intercalated join with one `"\n\t"` is the same as emitting each
element preceded by `"\n\t"` — i.e. one element per line, indented. -/
theorem pyJoin_cons_foldr (f : Arrival → String) (x : Arrival)
    (xs : List Arrival) :
    "\n\t" ++ pyJoin "\n\t" ((x :: xs).map f) =
      List.foldr (fun a acc => "\n\t" ++ f a ++ acc) "" (x :: xs) := by
  induction xs generalizing x with
  | nil => simp [pyJoin]
  | cons y ys ih =>
      have hy := ih y
      simp only [List.map_cons] at hy
      simp only [List.map_cons, pyJoin]
      rw [List.foldr_cons, ← hy]
      simp [String.append_assoc]

/-- Claim C5: the `ArrivalCollection` constructed from an engine's arrival
sequence is that sequence itself — same length, exactly the same elements
with the same multiplicities, in exactly the engine's output order, with
no filtering, sorting, or deduplication. -/
theorem arrivals_preserve_engine_output (l : List Arrival) :
    Arrivals.init l = l ∧
    (Arrivals.init l).length = l.length ∧
    (∀ x : Arrival, List.count x (Arrivals.init l) = List.count x l) :=
  ⟨rfl, rfl, fun _ => rfl⟩

/-- Claim C6: the human-readable form of a collection begins with the
element count followed by the literal `" arrivals"`, and (when nonempty)
continues with each element's human-readable form, one per line, each
indented by a tab; the machine-oriented form is a bracketed,
comma-separated join of the elements' machine-oriented forms. -/
theorem arrivals_display_forms (a : Arrivals) :
    (∃ rest : String,
      Arrivals.toStr a = toString a.length ++ " arrivals" ++ rest) ∧
    (a ≠ [] → Arrivals.toStr a =
      toString a.length ++ " arrivals" ++
        List.foldr (fun x acc => "\n\t" ++ Arrival.toStr x ++ acc) "" a) ∧
    Arrivals.toRepr a = "[" ++ pyJoin ", " (a.map Arrival.toRepr) ++ "]" := by
  refine ⟨⟨"\n\t" ++ pyJoin "\n\t" (a.map Arrival.toStr), ?_⟩, ?_, rfl⟩
  · show toString a.length ++ " arrivals\n\t" ++
        pyJoin "\n\t" (a.map Arrival.toStr) = _
    rw [show (" arrivals\n\t" : String) = " arrivals" ++ "\n\t" from rfl]
    simp only [String.append_assoc]
  · intro hne
    match a with
    | x :: xs =>
        show toString (x :: xs).length ++ " arrivals\n\t" ++
            pyJoin "\n\t" ((x :: xs).map Arrival.toStr) = _
        rw [show (" arrivals\n\t" : String) = " arrivals" ++ "\n\t" from rfl]
        simp only [String.append_assoc, pyJoin_cons_foldr]

/-- Witness for C6 at a concrete two-element collection. -/
theorem arrivals_display_forms_witness :
    (∃ rest : String,
      Arrivals.toStr [⟨"Pn", 15, "pn-str", "pn-repr"⟩, ⟨"S", 947, "s-str", "s-repr"⟩] =
        toString (List.length
          [(⟨"Pn", 15, "pn-str", "pn-repr"⟩ : Arrival), ⟨"S", 947, "s-str", "s-repr"⟩]) ++
          " arrivals" ++ rest) ∧
    Arrivals.toStr [⟨"Pn", 15, "pn-str", "pn-repr"⟩, ⟨"S", 947, "s-str", "s-repr"⟩] =
      "2 arrivals\n\tpn-str\n\ts-str" ∧
    Arrivals.toRepr [⟨"Pn", 15, "pn-str", "pn-repr"⟩, ⟨"S", 947, "s-str", "s-repr"⟩] =
      "[pn-repr, s-repr]" := by
  refine ⟨(arrivals_display_forms
    [⟨"Pn", 15, "pn-str", "pn-repr"⟩, ⟨"S", 947, "s-str", "s-repr"⟩]).1, ?_, ?_⟩
  · have h := (arrivals_display_forms
      [⟨"Pn", 15, "pn-str", "pn-repr"⟩, ⟨"S", 947, "s-str", "s-repr"⟩]).2.1 (by simp)
    rw [h]; rfl
  · exact (arrivals_display_forms
      [⟨"Pn", 15, "pn-str", "pn-repr"⟩, ⟨"S", 947, "s-str", "s-repr"⟩]).2.2

/-- Claim C10: the empty collection's human-readable form is exactly
`"0 arrivals"` followed by a newline and a single tab (the indentation of
the second line is emitted even with no elements), and its
machine-oriented form is exactly `"[]"`. -/
theorem empty_arrivals_display :
    Arrivals.toStr (Arrivals.init []) = "0 arrivals\n\t" ∧
    Arrivals.toRepr (Arrivals.init []) = "[]" :=
  ⟨rfl, rfl⟩

/-- Claim C1: when the initial load of a model fails with the "not found"
condition, construction records exactly this trace: the failed load, the
diagnostic print, exactly one build invocation (with the derived
source-profile filename), and exactly one retry load — and nothing after
the retry; in particular the build collaborator runs exactly once and the
load collaborator exactly twice. -/
theorem init_not_found_builds_once_retries_once {σ : Type}
    (load : σ → String → String → Bool → Except LoadErr TauModel)
    (build : σ → String → String → σ) (package_dir : String) (w : σ)
    (model : String) (verbose : Bool)
    (h : load w model (taup_model_path package_dir) verbose =
      Except.error LoadErr.fileNotFound) :
    (TauPyModel.init load build package_dir w model verbose).2.2 =
      [Event.loadCall model (taup_model_path package_dir) verbose,
       Event.printMsg (notFoundMsg model),
       Event.buildCall
         (if model.data.contains '.' then model else model ++ ".tvel")
         (taup_model_path package_dir),
       Event.loadCall model (taup_model_path package_dir) verbose] ∧
    countBuildCalls (TauPyModel.init load build package_dir w model verbose).2.2 = 1 ∧
    countLoadCalls (TauPyModel.init load build package_dir w model verbose).2.2 = 2 := by
  have htrace : (TauPyModel.init load build package_dir w model verbose).2.2 =
      [Event.loadCall model (taup_model_path package_dir) verbose,
       Event.printMsg (notFoundMsg model),
       Event.buildCall
         (if model.data.contains '.' then model else model ++ ".tvel")
         (taup_model_path package_dir),
       Event.loadCall model (taup_model_path package_dir) verbose] := by
    simp only [TauPyModel.init, TauPyModel.create_taup_model, h]
    split <;> rfl
  refine ⟨htrace, ?_, ?_⟩ <;> rw [htrace] <;>
    simp [countBuildCalls, countLoadCalls, Event.isBuildCall, Event.isLoadCall,
      List.filter]

/-- Witness for C1: on an empty model directory, constructing the default
facade records load, print, build of `iasp91.tvel`, retry load — and
nothing else. -/
theorem init_not_found_builds_once_retries_once_witness :
    (TauPyModel.init demoLoad demoBuild "pkg" ([] : List String)
        "iasp91" false).2.2 =
      [Event.loadCall "iasp91" (taup_model_path "pkg") false,
       Event.printMsg (notFoundMsg "iasp91"),
       Event.buildCall
         (if "iasp91".data.contains '.' then "iasp91" else "iasp91" ++ ".tvel")
         (taup_model_path "pkg"),
       Event.loadCall "iasp91" (taup_model_path "pkg") false] ∧
    countBuildCalls (TauPyModel.init demoLoad demoBuild "pkg"
      ([] : List String) "iasp91" false).2.2 = 1 ∧
    countLoadCalls (TauPyModel.init demoLoad demoBuild "pkg"
      ([] : List String) "iasp91" false).2.2 = 2 :=
  init_not_found_builds_once_retries_once demoLoad demoBuild "pkg" []
    "iasp91" false rfl

/-- Claim C3: a first-load failure other than "not found" propagates
unchanged with no build invocation and no state change; and when the
initial load fails with "not found", whatever error the retry load raises
(including a second "not found") propagates unchanged, with no load
attempt beyond the two recorded ones. -/
theorem load_errors_propagate_unchanged {σ : Type}
    (load : σ → String → String → Bool → Except LoadErr TauModel)
    (build : σ → String → String → σ) (package_dir : String) (w : σ)
    (model : String) (verbose : Bool) :
    (∀ msg : String,
      load w model (taup_model_path package_dir) verbose =
          Except.error (LoadErr.other msg) →
        TauPyModel.init load build package_dir w model verbose =
          (Except.error (LoadErr.other msg), w,
           [Event.loadCall model (taup_model_path package_dir) verbose])) ∧
    (load w model (taup_model_path package_dir) verbose =
        Except.error LoadErr.fileNotFound →
      ∀ e : LoadErr,
        load (TauPyModel.create_taup_model build model
              (taup_model_path package_dir) w).1
            model (taup_model_path package_dir) verbose = Except.error e →
          (TauPyModel.init load build package_dir w model verbose).1 =
            Except.error e ∧
          countLoadCalls
            (TauPyModel.init load build package_dir w model verbose).2.2 = 2) := by
  constructor
  · intro msg h
    simp only [TauPyModel.init, h]
  · intro h e h2
    constructor
    · simp only [TauPyModel.init, h, h2]
    · simp only [TauPyModel.init, TauPyModel.create_taup_model, h]
      split <;>
        simp [countLoadCalls, Event.isLoadCall, List.filter]

/-- Witness for C3: a "corrupt artifact" load error propagates with no
build, and with a builder that produces no artifact the retry's second
"not found" propagates after exactly two load attempts. -/
theorem load_errors_propagate_unchanged_witness :
    TauPyModel.init demoLoadCorrupt demoBuild "pkg" ([] : List String)
        "iasp91" false =
      (Except.error (LoadErr.other "corrupt artifact"), [],
       [Event.loadCall "iasp91" (taup_model_path "pkg") false]) ∧
    (TauPyModel.init demoLoad demoBuildNoop "pkg" ([] : List String)
        "iasp91" false).1 = Except.error LoadErr.fileNotFound ∧
    countLoadCalls (TauPyModel.init demoLoad demoBuildNoop "pkg"
      ([] : List String) "iasp91" false).2.2 = 2 := by
  have h1 := (load_errors_propagate_unchanged demoLoadCorrupt demoBuild
    "pkg" [] "iasp91" false).1 "corrupt artifact" rfl
  have h2 := (load_errors_propagate_unchanged demoLoad demoBuildNoop
    "pkg" [] "iasp91" false).2 rfl LoadErr.fileNotFound rfl
  exact ⟨h1, h2.1, h2.2⟩

/-- Claim C2 counterexample: calling `get_travel_time` with an explicitly
empty phase list builds the engine request with the empty phase list, not
with `["ttall"]` — the source defaults only on `None`, not on empty. -/
theorem empty_phase_list_not_defaulted :
    (demoFacade.get_travel_time demoTimeEngine 10 (some 20)
        (some ([] : List String)) false none).2.map Event.enginePhases =
      [some ([] : List String)] ∧
    (demoFacade.get_travel_time demoTimeEngine 10 (some 20)
        (some ([] : List String)) false none).2.map Event.enginePhases ≠
      [some ["ttall"]] := by
  refine ⟨rfl, ?_⟩
  simp [TauPyModel.get_travel_time, Event.enginePhases]

/-- Claim C2 (amended): in all three dispatch methods the phase list
defaults to `["ttall"]` exactly when the caller omits it (`None`); any
supplied phase list — the empty one included — is forwarded to the engine
request unchanged. -/
theorem phase_list_defaults_only_when_omitted (self : TauPyModel)
    (timeEngine : TimeReq → List Arrival)
    (pierceEngine : PierceReq → List Arrival)
    (pathEngine : PathReq → List Arrival)
    (depth : Rat) (distOpt : Option Rat) (dist : Rat) (po : Bool)
    (coord : Option (List Rat)) (p : List String) :
    (self.get_travel_time timeEngine depth distOpt none po coord).2.map
        Event.enginePhases = [some ["ttall"]] ∧
    (self.get_pierce_points pierceEngine depth dist none po).2.map
        Event.enginePhases = [some ["ttall"]] ∧
    (self.get_ray_paths pathEngine depth dist none po).2.map
        Event.enginePhases = [some ["ttall"]] ∧
    (self.get_travel_time timeEngine depth distOpt (some p) po coord).2.map
        Event.enginePhases = [some p] ∧
    (self.get_pierce_points pierceEngine depth dist (some p) po).2.map
        Event.enginePhases = [some p] ∧
    (self.get_ray_paths pathEngine depth dist (some p) po).2.map
        Event.enginePhases = [some p] :=
  ⟨rfl, rfl, rfl, rfl, rfl, rfl⟩

/-- Claim C7: omitting the phase list and passing `["ttall"]` explicitly
produce identical results in full — the same wrapped arrival collection
and the same engine request (recorded in the trace). -/
theorem travel_time_default_ttall_equivalence (self : TauPyModel)
    (timeEngine : TimeReq → List Arrival) (depth : Rat)
    (distOpt : Option Rat) (po : Bool) (coord : Option (List Rat)) :
    self.get_travel_time timeEngine depth distOpt none po coord =
      self.get_travel_time timeEngine depth distOpt (some ["ttall"]) po coord :=
  rfl

/-- Claim C4: `create_taup_model` hands the building collaborator the
model name verbatim as source-profile filename when the name contains a
`.`, and the name with `".tvel"` appended otherwise; the output directory
is passed through unchanged in both cases. -/
theorem create_taup_model_filename_rule {σ : Type}
    (build : σ → String → String → σ)
    (model_name : String) (output_dir : String) (w : σ) :
    (model_name.data.contains '.' = true →
      TauPyModel.create_taup_model build model_name output_dir w =
        (build w model_name output_dir,
         [Event.buildCall model_name output_dir])) ∧
    (model_name.data.contains '.' = false →
      TauPyModel.create_taup_model build model_name output_dir w =
        (build w (model_name ++ ".tvel") output_dir,
         [Event.buildCall (model_name ++ ".tvel") output_dir])) := by
  constructor
  · intro h
    have hmem : '.' ∈ model_name.data := by simpa using h
    simp [TauPyModel.create_taup_model, hmem]
  · intro h
    have hmem : '.' ∉ model_name.data := by simpa using h
    simp [TauPyModel.create_taup_model, hmem]

/-- Witness for C4: `"prem.nd"` (contains a dot) is used verbatim while
`"iasp91"` gets `".tvel"` appended, both sent to the same output
directory. -/
theorem create_taup_model_filename_rule_witness :
    TauPyModel.create_taup_model demoBuild "prem.nd" "out"
        ([] : List String) =
      (demoBuild [] "prem.nd" "out", [Event.buildCall "prem.nd" "out"]) ∧
    TauPyModel.create_taup_model demoBuild "iasp91" "out"
        ([] : List String) =
      (demoBuild [] ("iasp91" ++ ".tvel") "out",
       [Event.buildCall ("iasp91" ++ ".tvel") "out"]) :=
  ⟨(create_taup_model_filename_rule demoBuild "prem.nd" "out" []).1 (by decide),
   (create_taup_model_filename_rule demoBuild "iasp91" "out" []).2 (by decide)⟩

/-- Claim C8: a successful load binds the model exactly once at
construction (the trace holds a single load and the facade stores exactly
the loaded model and the given verbose flag), and each dispatch method
performs no load and no build — its trace is free of collaborator calls —
while addressing the engine with the bound model's name. -/
theorem model_bound_once_and_reused {σ : Type}
    (load : σ → String → String → Bool → Except LoadErr TauModel)
    (build : σ → String → String → σ) (package_dir : String) (w : σ)
    (model : String) (verbose : Bool) (self : TauPyModel)
    (timeEngine : TimeReq → List Arrival)
    (pierceEngine : PierceReq → List Arrival)
    (pathEngine : PathReq → List Arrival)
    (depth : Rat) (distOpt : Option Rat) (dist : Rat)
    (plist : Option (List String)) (po : Bool)
    (coord : Option (List Rat)) :
    (∀ m : TauModel,
      load w model (taup_model_path package_dir) verbose = Except.ok m →
        TauPyModel.init load build package_dir w model verbose =
          (Except.ok { model := m, verbose := verbose }, w,
           [Event.loadCall model (taup_model_path package_dir) verbose])) ∧
    (countLoadCalls
        (self.get_travel_time timeEngine depth distOpt plist po coord).2 = 0 ∧
     countBuildCalls
        (self.get_travel_time timeEngine depth distOpt plist po coord).2 = 0 ∧
     (self.get_travel_time timeEngine depth distOpt plist po coord).2.map
        Event.engineModelName = [some self.model.sMod.vMod.modelName]) ∧
    (countLoadCalls
        (self.get_pierce_points pierceEngine depth dist plist po).2 = 0 ∧
     countBuildCalls
        (self.get_pierce_points pierceEngine depth dist plist po).2 = 0 ∧
     (self.get_pierce_points pierceEngine depth dist plist po).2.map
        Event.engineModelName = [some self.model.sMod.vMod.modelName]) ∧
    (countLoadCalls
        (self.get_ray_paths pathEngine depth dist plist po).2 = 0 ∧
     countBuildCalls
        (self.get_ray_paths pathEngine depth dist plist po).2 = 0 ∧
     (self.get_ray_paths pathEngine depth dist plist po).2.map
        Event.engineModelName = [some self.model.sMod.vMod.modelName]) := by
  refine ⟨?_, ⟨rfl, rfl, rfl⟩, ⟨rfl, rfl, rfl⟩, ⟨rfl, rfl, rfl⟩⟩
  intro m h
  simp only [TauPyModel.init, h]

/-- Witness for C8: with `iasp91.taup` present the default construction
performs a single load and binds the demo model; a travel-time call on
the demo facade performs no load and no build. -/
theorem model_bound_once_and_reused_witness :
    TauPyModel.init demoLoad demoBuild "pkg" ["iasp91.taup"]
        "iasp91" false =
      (Except.ok { model := demoTauModel, verbose := false }, ["iasp91.taup"],
       [Event.loadCall "iasp91" (taup_model_path "pkg") false]) ∧
    countLoadCalls (demoFacade.get_travel_time demoTimeEngine 10 (some 20)
      none false none).2 = 0 ∧
    countBuildCalls (demoFacade.get_travel_time demoTimeEngine 10 (some 20)
      none false none).2 = 0 := by
  have h := model_bound_once_and_reused demoLoad demoBuild "pkg"
    ["iasp91.taup"] "iasp91" false demoFacade demoTimeEngine
    demoPierceEngine demoPathEngine 10 (some 20) 20 none false none
  exact ⟨h.1 demoTauModel rfl, h.2.1.1, h.2.1.2.1⟩

/-- Claim C9: with the model-name and verbosity arguments omitted, the
facade constructor resolves the model named "iasp91" with verbosity off —
the defaulted call coincides with the explicit one, and the first (and in
every branch, initial) collaborator call loads "iasp91" quietly. -/
theorem init_defaults_iasp91_quiet {σ : Type}
    (load : σ → String → String → Bool → Except LoadErr TauModel)
    (build : σ → String → String → σ) (package_dir : String) (w : σ) :
    TauPyModel.init load build package_dir w =
      TauPyModel.init load build package_dir w "iasp91" false ∧
    ((TauPyModel.init load build package_dir w).2.2).head? =
      some (Event.loadCall "iasp91" (taup_model_path package_dir) false) := by
  constructor
  · rfl
  · simp only [TauPyModel.init, TauPyModel.create_taup_model]
    split
    · rfl
    · split <;> rfl
    · rfl
